import Mathlib

/-!
Verification of the desktop-shell bootstrap fragment:
`src/Frontend/src-tauri/build.rs` (icon provisioner) and
`src/Frontend/src-tauri/src/main.rs` (backend lifecycle manager),
shallowly embedded in Lean.
-/

namespace UnrealMCP

/-! ### Icon provisioner (`build.rs`) -/

/-- The fixed 70-byte ICO payload written by `ensure_windows_icon`:
ICONDIR header, one ICONDIRENTRY, a BITMAPINFOHEADER, one BGRA pixel and
the AND mask, transcribed byte for byte from `build.rs`. -/
def icoBytes : List Nat :=
  [ 0x00, 0x00,
    0x01, 0x00,
    0x01, 0x00,
    0x01,
    0x01,
    0x00,
    0x00,
    0x01, 0x00,
    0x20, 0x00,
    0x30, 0x00, 0x00, 0x00,
    0x16, 0x00, 0x00, 0x00,
    0x28, 0x00, 0x00, 0x00,
    0x01, 0x00, 0x00, 0x00,
    0x02, 0x00, 0x00, 0x00,
    0x01, 0x00,
    0x20, 0x00,
    0x00, 0x00, 0x00, 0x00,
    0x00, 0x00, 0x00, 0x00,
    0x00, 0x00, 0x00, 0x00,
    0x00, 0x00, 0x00, 0x00,
    0x00, 0x00, 0x00, 0x00,
    0x00, 0x00, 0x00, 0x00,
    0x00, 0x00, 0x00, 0x00,
    0x00, 0x00, 0x00, 0x00 ]

/-- A filesystem, as far as this fragment observes it: each path either
holds a byte sequence or no file. -/
def FS : Type := String → Option (List Nat)

/-- The icon target path: `manifest_dir/icons/icon.ico`
(the two `PathBuf::push` calls in `build.rs`). -/
def icoPath (manifestDir : String) : String :=
  manifestDir ++ "/icons/icon.ico"

/-- The fallible-OS environment seen by `ensure_windows_icon`:
whether `CARGO_MANIFEST_DIR` is set, whether `create_dir_all` succeeds
(its result is discarded by the code), whether `File::create` succeeds,
and how many bytes `write_all` manages to put down before failing
(70 or more means the write succeeds in full). -/
structure BuildEnv where
  cargoManifestDir : Option String
  createDirOk : Bool
  createFileOk : Bool
  writeAllWritten : Nat

/-- `ensure_windows_icon` from `build.rs`: if a file exists at the icon
path, return at once; otherwise best-effort create the parent directory
(result ignored), then `File::create` (creating an empty file) and
`write_all` the payload, discarding every error.  Returns the new
filesystem and the log output (the function prints nothing). -/
def ensure_windows_icon (env : BuildEnv) (fs : FS) : FS × List String :=
  let manifestDir := env.cargoManifestDir.getD "."
  let p := icoPath manifestDir
  match fs p with
  | some _ => (fs, [])
  | none =>
      if env.createFileOk then
        (fun q => if q = p then some (icoBytes.take env.writeAllWritten) else fs q, [])
      else (fs, [])

/-- Little-endian 16-bit field of a byte list at offset `i`. -/
def le16 (l : List Nat) (i : Nat) : Nat :=
  l.getD i 0 + 256 * l.getD (i + 1) 0

/-- Little-endian 32-bit field of a byte list at offset `i`. -/
def le32 (l : List Nat) (i : Nat) : Nat :=
  le16 l i + 65536 * le16 l (i + 2)

/-! ### Backend lifecycle manager (`main.rs`) -/

/-- A child-process handle, carrying the OS-reported process identifier
(`Child::id`). -/
structure Child where
  id : Nat
deriving DecidableEq, Repr

/-- Outcome of `Command::spawn` for a given executable path. -/
inductive SpawnOutcome where
  | ok (child : Child)
  | err (msg : String)
deriving DecidableEq, Repr

/-- The host environment seen by `start_backend_process`: the result of
`resource_dir()` (absent on resolution failure) and the OS spawn oracle. -/
structure AppEnv where
  resourceDir : Option String
  spawn : String → SpawnOutcome

/-- The fixed backend executable filename. -/
def backendExeName : String := "MegaMelangeBackend.exe"

/-- `PathBuf::join` on the paths this fragment builds. -/
def joinPath (dir file : String) : String := dir ++ "/" ++ file

/-- `start_backend_process` from `main.rs`.  `Except.error` is the
`expect` panic aborting startup when the resource directory cannot be
resolved; otherwise the function returns the optional handle together
with its log lines, spawn failure being non-fatal. -/
def start_backend_process (env : AppEnv) : Except String (Option Child × List String) :=
  match env.resourceDir with
  | none => Except.error "Failed to get resource directory"
  | some dir =>
      let backend_exe := joinPath dir backendExeName
      let startLog := "Starting backend from: " ++ backend_exe
      match env.spawn backend_exe with
      | SpawnOutcome.ok child =>
          Except.ok (some child,
            [startLog, "Backend started with PID: " ++ toString child.id])
      | SpawnOutcome.err e =>
          Except.ok (none,
            [startLog, "Failed to start backend: " ++ e,
             "Tried to run: " ++ backend_exe])

/-- The host environment seen by the close-request handler:
whether `try_state` finds the managed `BackendProcess` state, whether
`Mutex::lock` returns `Ok` (the mutex is not poisoned), and whether
`Child::kill` succeeds (its result is discarded by the code). -/
structure CloseEnv where
  registered : Bool
  lockOk : Bool
  killOk : Bool
deriving DecidableEq, Repr

/-- Observable outcome of one close-request invocation: the slot
afterwards, the process identifiers a kill signal was issued to (in
order), and the log output. -/
structure CloseResult where
  slot : Option Child
  kills : List Nat
  log : List String
deriving DecidableEq, Repr

/-- The `CloseRequested` arm of the `on_window_event` closure in
`main.rs`: look up the managed state, lock the mutex, `take()` the
optional handle, and if one was present kill it (result discarded) and
print completion; every guard failing is a silent no-op. -/
def on_close_requested (env : CloseEnv) (slot : Option Child) : CloseResult :=
  if env.registered then
    if env.lockOk then
      match slot with
      | some child => ⟨none, [child.id], ["Backend process terminated"]⟩
      | none => ⟨none, [], []⟩
    else ⟨slot, [], []⟩
  else ⟨slot, [], []⟩

/-! ### Theorems about the close-request handler -/

/-- Claim C1: when the slot holds a child-process handle and the managed
state and lock are available, the close-request handler empties the slot
and issues exactly one forceful termination signal, to that process. -/
theorem close_present_kills_once (env : CloseEnv) (child : Child)
    (hreg : env.registered = true) (hlock : env.lockOk = true) :
    on_close_requested env (some child) =
      ⟨none, [child.id], ["Backend process terminated"]⟩ := by
  simp [on_close_requested, hreg, hlock]

/-- Witness for C1 at a concrete state. -/
theorem close_present_kills_once_witness :
    on_close_requested ⟨true, true, true⟩ (some ⟨3⟩) =
      ⟨none, [3], ["Backend process terminated"]⟩ :=
  close_present_kills_once ⟨true, true, true⟩ ⟨3⟩ rfl rfl

/-- Claim C2: the close-request handler is idempotent: a second
invocation leaves the slot of the first invocation unchanged and adds no
termination signal, and on an empty slot the handler produces the empty
outcome (no error, no signal, no log). -/
theorem close_idempotent (env : CloseEnv) (slot : Option Child) :
    (on_close_requested env (on_close_requested env slot).slot).slot
        = (on_close_requested env slot).slot
    ∧ (on_close_requested env slot).kills
        ++ (on_close_requested env (on_close_requested env slot).slot).kills
        = (on_close_requested env slot).kills
    ∧ on_close_requested env none = ⟨none, [], []⟩ := by
  obtain ⟨reg, lock, kill⟩ := env
  cases reg <;> cases lock <;> cases slot <;>
    simp [on_close_requested]

/-- Claim C9: the kill syscall's result is discarded: the run in which
the kill fails is observably identical to the run in which it succeeds,
and even on kill failure a present handle is removed, exactly one signal
is issued and completion is logged; nothing about the failure is
logged. -/
theorem close_kill_failure_ignored (registered lockOk : Bool)
    (child : Child) (hreg : registered = true) (hlock : lockOk = true) :
    on_close_requested ⟨registered, lockOk, false⟩ (some child)
        = on_close_requested ⟨registered, lockOk, true⟩ (some child)
    ∧ on_close_requested ⟨registered, lockOk, false⟩ (some child)
        = ⟨none, [child.id], ["Backend process terminated"]⟩ := by
  subst hreg hlock
  exact ⟨rfl, by simp [on_close_requested]⟩

/-- Witness for C9 at a concrete state. -/
theorem close_kill_failure_ignored_witness :
    on_close_requested ⟨true, true, false⟩ (some ⟨7⟩)
        = on_close_requested ⟨true, true, true⟩ (some ⟨7⟩)
    ∧ on_close_requested ⟨true, true, false⟩ (some ⟨7⟩)
        = ⟨none, [7], ["Backend process terminated"]⟩ :=
  close_kill_failure_ignored true true ⟨7⟩ rfl rfl

/-- Claim C10: if the managed state is not registered or the mutex lock
cannot be acquired, the close-request handler is a silent no-op: the slot
is unchanged, no termination signal is sent, nothing is logged. -/
theorem close_guard_failure_noop (env : CloseEnv) (slot : Option Child)
    (h : env.registered = false ∨ env.lockOk = false) :
    on_close_requested env slot = ⟨slot, [], []⟩ := by
  obtain ⟨reg, lock, kill⟩ := env
  rcases h with h | h <;> subst h <;> cases slot <;>
    simp [on_close_requested]

/-- Witness for C10 at a concrete state: a present handle survives a
poisoned lock untouched. -/
theorem close_guard_failure_noop_witness :
    on_close_requested ⟨true, false, true⟩ (some ⟨5⟩) = ⟨some ⟨5⟩, [], []⟩ :=
  close_guard_failure_noop ⟨true, false, true⟩ (some ⟨5⟩) (Or.inr rfl)

/-! ### Theorems about backend start -/

/-- Claim C5: on any spawn failure, backend start returns normally
(`Except.ok`, so startup continues) with an absent handle, and its log
records the attempted path and the OS error. -/
theorem spawn_failure_nonfatal (env : AppEnv) (dir e : String)
    (hdir : env.resourceDir = some dir)
    (hspawn : env.spawn (joinPath dir backendExeName) = SpawnOutcome.err e) :
    start_backend_process env =
      Except.ok (none,
        ["Starting backend from: " ++ joinPath dir backendExeName,
         "Failed to start backend: " ++ e,
         "Tried to run: " ++ joinPath dir backendExeName]) := by
  simp [start_backend_process, hdir, hspawn]

/-- Witness for C5: a missing executable leaves the slot empty and the
application running. -/
theorem spawn_failure_nonfatal_witness :
    start_backend_process
        ⟨some "res", fun _ => SpawnOutcome.err "os error 2"⟩ =
      Except.ok (none,
        ["Starting backend from: " ++ joinPath "res" backendExeName,
         "Failed to start backend: " ++ "os error 2",
         "Tried to run: " ++ joinPath "res" backendExeName]) :=
  spawn_failure_nonfatal ⟨some "res", fun _ => SpawnOutcome.err "os error 2"⟩
    "res" "os error 2" rfl rfl

/-- Claim C6: on spawn success, backend start returns a present handle
holding the spawned child and logs its process identifier; the recorded
identifier is the OS-reported one, so it is positive whenever the OS
reports a positive identifier (as every real OS does for a spawned
child). -/
theorem spawn_success_present (env : AppEnv) (dir : String) (child : Child)
    (hdir : env.resourceDir = some dir)
    (hspawn : env.spawn (joinPath dir backendExeName) = SpawnOutcome.ok child)
    (hpid : 0 < child.id) :
    start_backend_process env =
      Except.ok (some child,
        ["Starting backend from: " ++ joinPath dir backendExeName,
         "Backend started with PID: " ++ toString child.id])
    ∧ 0 < child.id := by
  refine ⟨?_, hpid⟩
  simp [start_backend_process, hdir, hspawn]

/-- Witness for C6 at a concrete environment whose spawn yields PID 7. -/
theorem spawn_success_present_witness :
    start_backend_process ⟨some "res", fun _ => SpawnOutcome.ok ⟨7⟩⟩ =
      Except.ok (some (⟨7⟩ : Child),
        ["Starting backend from: " ++ joinPath "res" backendExeName,
         "Backend started with PID: " ++ toString (7 : Nat)])
    ∧ 0 < (7 : Nat) :=
  spawn_success_present ⟨some "res", fun _ => SpawnOutcome.ok ⟨7⟩⟩
    "res" ⟨7⟩ rfl rfl (by decide)

/-- Claim C7: backend start aborts (yields `Except.error`, the `expect`
panic) exactly when resource-directory resolution fails; every other
failure mode of the function returns `Except.ok`. -/
theorem resource_dir_failure_fatal (env : AppEnv) :
    (∃ e, start_backend_process env = Except.error e) ↔
      env.resourceDir = none := by
  cases h : env.resourceDir with
  | none =>
      refine ⟨fun _ => rfl,
        fun _ => ⟨"Failed to get resource directory", ?_⟩⟩
      simp [start_backend_process, h]
  | some dir =>
      simp only [start_backend_process, h]
      cases env.spawn (joinPath dir backendExeName) <;> simp

/-- Witness for C7: an unresolvable resource directory is fatal. -/
theorem resource_dir_failure_fatal_witness :
    ∃ e, start_backend_process ⟨none, fun _ => SpawnOutcome.ok ⟨7⟩⟩ =
      Except.error e :=
  (resource_dir_failure_fatal ⟨none, fun _ => SpawnOutcome.ok ⟨7⟩⟩).mpr rfl

/-! ### Theorems about the icon provisioner -/

/-- Claim C3: when a file already exists at the icon path, the
provisioner returns immediately: the whole filesystem — in particular
that file's bytes and length — is unchanged, and nothing is logged. -/
theorem icon_exists_untouched (env : BuildEnv) (fs : FS) (root : String)
    (content : List Nat)
    (hroot : env.cargoManifestDir = some root)
    (hexists : fs (icoPath root) = some content) :
    ensure_windows_icon env fs = (fs, []) := by
  simp [ensure_windows_icon, hroot, hexists]

/-- Witness for C3: a pre-existing 3-byte file survives provisioning. -/
theorem icon_exists_untouched_witness :
    ensure_windows_icon ⟨some "proj", true, true, 70⟩
        (fun q => if q = icoPath "proj" then some [1, 2, 3] else none) =
      ((fun q => if q = icoPath "proj" then some [1, 2, 3] else none), []) :=
  icon_exists_untouched ⟨some "proj", true, true, 70⟩ _ "proj" [1, 2, 3]
    rfl (by simp)

/-- Claim C4: with no file at the icon path and the writes succeeding,
the provisioner puts exactly the 70-byte payload at
`root/icons/icon.ico`: a 6-byte ICONDIR signature, a 16-byte
ICONDIRENTRY, a 40-byte BITMAPINFOHEADER with width 1, height 2, planes
1, bit depth 32 and no compression, then 4 transparent-pixel bytes and 4
zeroed mask bytes. -/
theorem icon_created_structure (env : BuildEnv) (fs : FS) (root : String)
    (hroot : env.cargoManifestDir = some root)
    (habsent : fs (icoPath root) = none)
    (hcreate : env.createFileOk = true)
    (hwrite : 70 ≤ env.writeAllWritten) :
    (ensure_windows_icon env fs).1 (icoPath root) = some icoBytes
    ∧ icoPath root = root ++ "/icons/icon.ico"
    ∧ icoBytes.length = 70
    ∧ icoBytes.take 6 = [0x00, 0x00, 0x01, 0x00, 0x01, 0x00]
    ∧ (icoBytes.drop 6).take 16 =
        [0x01, 0x01, 0x00, 0x00, 0x01, 0x00, 0x20, 0x00,
         0x30, 0x00, 0x00, 0x00, 0x16, 0x00, 0x00, 0x00]
    ∧ le32 icoBytes 22 = 40
    ∧ le32 icoBytes 26 = 1
    ∧ le32 icoBytes 30 = 2
    ∧ le16 icoBytes 34 = 1
    ∧ le16 icoBytes 36 = 32
    ∧ le32 icoBytes 38 = 0
    ∧ icoBytes.drop 62 = [0, 0, 0, 0, 0, 0, 0, 0] := by
  refine ⟨?_, rfl, by decide, by decide, by decide, by decide, by decide,
    by decide, by decide, by decide, by decide, by decide⟩
  have hlen : icoBytes.length ≤ env.writeAllWritten := by
    simpa using hwrite
  simp [ensure_windows_icon, hroot, habsent, hcreate,
    List.take_of_length_le hlen]

/-- Witness for C4 on an empty filesystem with all writes succeeding. -/
theorem icon_created_structure_witness :
    (ensure_windows_icon ⟨some "proj", true, true, 70⟩ (fun _ => none)).1
        (icoPath "proj") = some icoBytes
    ∧ icoPath "proj" = "proj" ++ "/icons/icon.ico"
    ∧ icoBytes.length = 70
    ∧ icoBytes.take 6 = [0x00, 0x00, 0x01, 0x00, 0x01, 0x00]
    ∧ (icoBytes.drop 6).take 16 =
        [0x01, 0x01, 0x00, 0x00, 0x01, 0x00, 0x20, 0x00,
         0x30, 0x00, 0x00, 0x00, 0x16, 0x00, 0x00, 0x00]
    ∧ le32 icoBytes 22 = 40
    ∧ le32 icoBytes 26 = 1
    ∧ le32 icoBytes 30 = 2
    ∧ le16 icoBytes 34 = 1
    ∧ le16 icoBytes 36 = 32
    ∧ le32 icoBytes 38 = 0
    ∧ icoBytes.drop 62 = [0, 0, 0, 0, 0, 0, 0, 0] :=
  icon_created_structure ⟨some "proj", true, true, 70⟩ (fun _ => none)
    "proj" rfl rfl rfl (by decide)

/-- Claim C8 counterexample: when `File::create` succeeds but the write
fails after 0 bytes, an empty file remains at the icon path — the icon
path is not left absent, contradicting "leaving the icon absent". -/
theorem icon_failure_leaves_file :
    (ensure_windows_icon ⟨some "proj", true, true, 0⟩ (fun _ => none)).1
        (icoPath "proj") = some []
    ∧ (ensure_windows_icon ⟨some "proj", true, true, 0⟩ (fun _ => none)).1
        (icoPath "proj") ≠ none := by
  constructor
  · rfl
  · intro h
    simp [ensure_windows_icon] at h

/-- Claim C8 (amended): every I/O failure during provisioning is
swallowed: the routine returns normally and logs nothing; when file
creation fails the filesystem is untouched, and when creation succeeds
but the write falls short the full 70-byte payload is absent, though an
empty or partial file remains at the icon path. -/
theorem icon_failure_swallowed (env : BuildEnv) (fs : FS) (root : String)
    (hroot : env.cargoManifestDir = some root)
    (habsent : fs (icoPath root) = none) :
    (ensure_windows_icon env fs).2 = []
    ∧ (env.createFileOk = false → (ensure_windows_icon env fs).1 = fs)
    ∧ (env.createFileOk = true → env.writeAllWritten < 70 →
        (ensure_windows_icon env fs).1 (icoPath root)
            = some (icoBytes.take env.writeAllWritten)
        ∧ (ensure_windows_icon env fs).1 (icoPath root) ≠ some icoBytes) := by
  refine ⟨?_, ?_, ?_⟩
  · obtain ⟨d, cd, cf, w⟩ := env
    simp only [Option.some.injEq] at hroot
    subst hroot
    cases cf <;> simp [ensure_windows_icon, habsent]
  · intro hcf
    simp [ensure_windows_icon, hroot, habsent, hcf]
  · intro hcf hw
    have hne : icoBytes.take env.writeAllWritten ≠ icoBytes := by
      intro h
      have := congrArg List.length h
      simp [icoBytes] at this
      omega
    constructor
    · simp [ensure_windows_icon, hroot, habsent, hcf]
    · simp [ensure_windows_icon, hroot, habsent, hcf, hne]

/-- Witness for the amended C8 at a write that fails after 5 bytes. -/
theorem icon_failure_swallowed_witness :
    (ensure_windows_icon ⟨some "proj", true, true, 5⟩ (fun _ => none)).2 = []
    ∧ ((⟨some "proj", true, true, 5⟩ : BuildEnv).createFileOk = false →
        (ensure_windows_icon ⟨some "proj", true, true, 5⟩ (fun _ => none)).1
          = (fun _ => none))
    ∧ ((⟨some "proj", true, true, 5⟩ : BuildEnv).createFileOk = true →
        (⟨some "proj", true, true, 5⟩ : BuildEnv).writeAllWritten < 70 →
        (ensure_windows_icon ⟨some "proj", true, true, 5⟩ (fun _ => none)).1
            (icoPath "proj")
          = some (icoBytes.take
              (⟨some "proj", true, true, 5⟩ : BuildEnv).writeAllWritten)
        ∧ (ensure_windows_icon ⟨some "proj", true, true, 5⟩ (fun _ => none)).1
            (icoPath "proj") ≠ some icoBytes) :=
  icon_failure_swallowed ⟨some "proj", true, true, 5⟩ (fun _ => none)
    "proj" rfl rfl

end UnrealMCP
